import Mathlib

/-!
Verification of the aioncore kernel's core subsystems against its
natural-language specification.

The development shallowly embeds the C sources:
* `src/mm/pmm.c`        — physical frame allocator (bitmap based)
* `src/arch/x86/mmu.c`  — two-level page tables, map/unmap
* `src/core/scheduler.c`— 256-level priority scheduler with summary bitmap
* `src/core/task.c`     — kernel-thread creation
* `src/core/syscall.c`  — INT 0x80 dispatch table

Machine integers are modelled as `Nat` with explicit masking where the C
code relies on fixed-width behaviour; pointers are modelled as `Option`
of an address/identifier; physical memory holding page tables is a total
map from frame address to a 1024-entry word array.
-/

namespace AionCore

/-! ## Physical Memory Manager (src/mm/pmm.c) -/

/-- FRAME_SIZE: 4 KiB pages. -/
def FRAME_SIZE : Nat := 4096

/-- MAX_FRAMES = 4 GiB / 4 KiB: the number of manageable frames. -/
def MAX_FRAMES : Nat := 4 * 1024 * 1024 * 1024 / FRAME_SIZE

/-- BITMAP_SIZE: one bit per frame, eight frames per byte. -/
def BITMAP_SIZE : Nat := MAX_FRAMES / 8

/-- The PMM state (struct `pmm_state` together with the static
`frame_bitmap` array).  The bitmap is modelled one bit per frame
(`true` = allocated), abstracting the byte packing of the C array.
The C field `uint8_t *bitmap` is NULL until `pmm_init` runs; only its
null-ness is observable, kept in `bitmap_is_null`. -/
structure PmmState where
  frame_bitmap : Nat → Bool
  bitmap_is_null : Bool
  total_frames : Nat
  free_frames : Nat
  reserved_frames : Nat
  inited : Bool
deriving Inhabited

/-- bitmap_test: is the bit for `frame` set (frame allocated)? -/
def bitmap_test (s : PmmState) (frame : Nat) : Bool :=
  s.frame_bitmap frame

/-- bitmap_set: mark `frame` as allocated. -/
def bitmap_set (s : PmmState) (frame : Nat) : PmmState :=
  { s with frame_bitmap := fun f => if f = frame then true else s.frame_bitmap f }

/-- bitmap_clear: mark `frame` as free. -/
def bitmap_clear (s : PmmState) (frame : Nat) : PmmState :=
  { s with frame_bitmap := fun f => if f = frame then false else s.frame_bitmap f }

/-- The scan loop of `bitmap_find_free`, expressed frame-by-frame with
explicit fuel.  The C code scans the packed byte array left to right and
inside the first byte that is not 0xFF takes the lowest clear bit; both
walks visit the frames in increasing order, so the result is the first
clear frame.  Returns `MAX_FRAMES` when no clear frame exists. -/
def bitmap_find_free_from (bm : Nat → Bool) (i : Nat) : Nat → Nat
  | 0 => MAX_FRAMES
  | fuel + 1 => if bm i then bitmap_find_free_from bm (i + 1) fuel else i

/-- bitmap_find_free: first free frame, or MAX_FRAMES if none. -/
def bitmap_find_free (s : PmmState) : Nat :=
  bitmap_find_free_from s.frame_bitmap 0 MAX_FRAMES

/-- pmm_is_initialized. -/
def pmm_is_initialized (s : PmmState) : Bool :=
  s.inited

/-- pmm_alloc_page: returns the allocated physical address (0 on failure)
paired with the successor state.  Mirrors the source: runtime guard on
initialization, out-of-frames check, first-free scan, bit set plus
free-count decrement, and the unconditional alignment re-check (which
fires after the state mutation in the C code). -/
def pmm_alloc_page (s : PmmState) : Nat × PmmState :=
  if !s.inited || s.bitmap_is_null then (0, s)
  else if s.free_frames = 0 then (0, s)
  else
    let frame := bitmap_find_free s
    if MAX_FRAMES ≤ frame then (0, s)
    else
      let s1 := { bitmap_set s frame with free_frames := s.free_frames - 1 }
      let addr := frame * FRAME_SIZE
      if addr &&& (FRAME_SIZE - 1) ≠ 0 then (0, s1)
      else (addr, s1)

/-- pmm_free_page.  The kassert preconditions (initialized, non-null
bitmap, alignment, frame in range) compile to no-ops outside DEBUG
builds; the remaining runtime behaviour is the double-free guard: an
already-free frame logs and returns with the state untouched. -/
def pmm_free_page (s : PmmState) (page : Nat) : PmmState :=
  let frame := page / FRAME_SIZE
  if !bitmap_test s frame then s
  else { bitmap_clear s frame with free_frames := s.free_frames + 1 }

/-- The loop body of `pmm_reserve_region`, one iteration per frame in
`[frame, frame + fuel)`: inside MAX_FRAMES, a previously free frame that
lies below `total_frames` moves from the free count to the reserved
count (guarded by `free_frames > 0`), and the bit is set. -/
def reserve_frames (s : PmmState) (frame : Nat) : Nat → PmmState
  | 0 => s
  | fuel + 1 =>
    let s1 :=
      if frame < MAX_FRAMES then
        let s0 :=
          if !bitmap_test s frame && frame < s.total_frames then
            if 0 < s.free_frames then
              { s with free_frames := s.free_frames - 1,
                       reserved_frames := s.reserved_frames + 1 }
            else s
          else s
        bitmap_set s0 frame
      else s
    reserve_frames s1 (frame + 1) fuel

/-- pmm_reserve_region(start, size): set the bits of every frame the
region `[start, start + size)` touches. -/
def pmm_reserve_region (s : PmmState) (start size : Nat) : PmmState :=
  let frame_start := start / FRAME_SIZE
  let frame_end := (start + size + FRAME_SIZE - 1) / FRAME_SIZE
  reserve_frames s frame_start (frame_end - frame_start)

/-- MULTIBOOT_MAGIC. -/
def MULTIBOOT_MAGIC : Nat := 0x2BADB002

/-- MULTIBOOT_FLAG_MMAP (bit 6 of the multiboot flags). -/
def MULTIBOOT_FLAG_MMAP : Nat := 0x040

/-- MULTIBOOT_MEMORY_AVAILABLE. -/
def MULTIBOOT_MEMORY_AVAILABLE : Nat := 1

/-- One multiboot memory-map entry (`struct multiboot_mmap_entry`).
The `size` stride field only drives the iteration in C; the entries are
modelled as a list, so it is omitted. -/
structure MmapEntry where
  addr : Nat
  len : Nat
  type : Nat
deriving Inhabited

/-- The multiboot info structure, reduced to the fields `pmm_init`
reads: the flags word and the memory map. -/
structure MultibootInfo where
  flags : Nat
  mmap : List MmapEntry
deriving Inhabited

/-- The inner loop of `pmm_init` for one AVAILABLE region: clear the bit
of each fully contained frame and bump the total and free counters
(frames at or above MAX_FRAMES are skipped). -/
def mark_avail_frames (s : PmmState) (frame : Nat) : Nat → PmmState
  | 0 => s
  | fuel + 1 =>
    let s1 :=
      if frame < MAX_FRAMES then
        { bitmap_clear s frame with
          total_frames := s.total_frames + 1,
          free_frames := s.free_frames + 1 }
      else s
    mark_avail_frames s1 (frame + 1) fuel

/-- The memory-map walk of `pmm_init`: for each AVAILABLE entry, mark
the frames of `[align_up addr, align_down (addr+len))` as free. -/
def process_mmap (s : PmmState) : List MmapEntry → PmmState
  | [] => s
  | e :: rest =>
    let s1 :=
      if e.type = MULTIBOOT_MEMORY_AVAILABLE then
        let frame_start := (e.addr + FRAME_SIZE - 1) / FRAME_SIZE
        let frame_end := (e.addr + e.len) / FRAME_SIZE
        mark_avail_frames s frame_start (frame_end - frame_start)
      else s
    process_mmap s1 rest

/-- The state after the `frame_bitmap = all 0xFF` reset at the top of
both initialization paths: every frame marked allocated, counters zero. -/
def pmm_reset_state : PmmState :=
  { frame_bitmap := fun _ => true
    bitmap_is_null := false
    total_frames := 0
    free_frames := 0
    reserved_frames := 0
    inited := false }

/-- The fallback path of `pmm_init`: assume 128 MiB of RAM from 0
(32768 frames marked available). -/
def pmm_fallback_init : PmmState :=
  mark_avail_frames pmm_reset_state 0 ((128 * 1024 * 1024) / FRAME_SIZE)

/-- pmm_init(magic, mbi): the multiboot pointer is `none` for
NULL/low-memory pointers.  `kernel_start/kernel_end` stand for the
linker symbols `_kernel_start`/`_kernel_end` delimiting the kernel
image.  After either path, the NULL page, the VGA text window and the
kernel image are reserved and the initialization flag is set. -/
def pmm_init (magic : Nat) (mbi : Option MultibootInfo)
    (kernel_start kernel_end : Nat) : PmmState :=
  { pmm_reserve_region
      (pmm_reserve_region
        (pmm_reserve_region
          (if magic ≠ MULTIBOOT_MAGIC then pmm_fallback_init
           else
             match mbi with
             | none => pmm_fallback_init
             | some info =>
               if info.flags &&& MULTIBOOT_FLAG_MMAP = 0 then pmm_fallback_init
               else process_mmap pmm_reset_state info.mmap)
          0 FRAME_SIZE)
        0xb8000 (32 * 1024))
      kernel_start (kernel_end - kernel_start)
    with inited := true }

/-- A small concrete PMM state used to exercise the allocator: frame 0
allocated, frames 1 and 2 (and beyond) free, free count 2. -/
def w_pmm_two_free : PmmState :=
  ⟨fun f => f == 0, false, 3, 2, 1, true⟩

/-- As `w_pmm_two_free` but with an exhausted free count. -/
def w_pmm_no_free : PmmState :=
  ⟨fun f => f == 0, false, 3, 0, 1, true⟩

/-- A PMM state never initialized: the state as it is before `pmm_init`
runs (all-ones bitmap, NULL bitmap pointer, zero counters). -/
def w_pmm_uninited : PmmState :=
  ⟨fun _ => true, true, 0, 0, 0, false⟩

/-- A two-frame memory map with a hole below it: `[0x1000, 0x3000)`
available, nothing else.  Frames 1 and 2 become available, so
`total_frames = 2` while the largest valid frame index is 2. -/
def c3_info : MultibootInfo :=
  ⟨0x40, [⟨0x1000, 0x2000, 1⟩]⟩

/-- The PMM state after `pmm_init` on `c3_info` (kernel image at the
host-test mock bounds 1 MiB–2 MiB, as in `src/mm/pmm.c` under
HOST_TEST). -/
def c3_state : PmmState :=
  pmm_init MULTIBOOT_MAGIC (some c3_info) 0x100000 0x200000

/-! ## Scheduler (src/core/scheduler.c)

Task pointers are modelled as `Nat` identifiers into a total task heap;
the NULL pointer is `none` at the interface of the operations.  The
fields of `task_t` the scheduler touches are state, priority (a
`uint8_t`, hence `Fin 256`) and the two queue links. -/

/-- SCHED_NUM_PRIORITIES. -/
def SCHED_NUM_PRIORITIES : Nat := 256

/-- SCHED_IDLE_PRIORITY. -/
def SCHED_IDLE_PRIORITY : Nat := 0

/-- task_state_t. -/
inductive TaskState
  | ready
  | running
  | blocked
  | zombie
deriving DecidableEq, Inhabited

/-- The scheduler-visible part of `struct task`. -/
structure TaskRec where
  state : TaskState
  priority : Fin 256
  next : Option Nat
  prev : Option Nat
deriving DecidableEq, Inhabited

/-- task_queue_t: one circular doubly-linked ready queue. -/
structure TaskQueue where
  head : Option Nat
  tail : Option Nat
  count : Nat
deriving DecidableEq, Inhabited

/-- scheduler_t (`g_scheduler`) together with the task heap the queue
links live in.  `priority_bitmap` is 8 32-bit words (indices 0–7). -/
structure SchedState where
  ready : Nat → TaskQueue
  priority_bitmap : Nat → Nat
  tasks : Nat → TaskRec
  current_task : Option Nat
  context_switches : Nat
  ticks : Nat
  need_resched : Bool

/-- Point update of the ready-queue array. -/
def upd_queue (s : SchedState) (p : Nat) (q : TaskQueue) : SchedState :=
  { s with ready := fun x => if x = p then q else s.ready x }

/-- Point update of the task heap. -/
def upd_task (s : SchedState) (t : Nat) (r : TaskRec) : SchedState :=
  { s with tasks := fun x => if x = t then r else s.tasks x }

/-- set_priority_bit: `bitmap[p/32] |= 1u << (p%32)`. -/
def set_priority_bit (s : SchedState) (priority : Fin 256) : SchedState :=
  let word_idx := priority.val / 32
  let bit_idx := priority.val % 32
  { s with priority_bitmap := fun w =>
      if w = word_idx then s.priority_bitmap w ||| (1 <<< bit_idx)
      else s.priority_bitmap w }

/-- clear_priority_bit: `bitmap[p/32] &= ~(1u << (p%32))`; the `uint32_t`
complement is modelled as xor against the all-ones 32-bit mask. -/
def clear_priority_bit (s : SchedState) (priority : Fin 256) : SchedState :=
  let word_idx := priority.val / 32
  let bit_idx := priority.val % 32
  { s with priority_bitmap := fun w =>
      if w = word_idx then s.priority_bitmap w &&& ((2 ^ 32 - 1) ^^^ (1 <<< bit_idx))
      else s.priority_bitmap w }

/-- scheduler_enqueue: NULL or non-READY tasks are ignored; otherwise
append to the tail of the task's priority queue, bump the count and set
the priority bit.  (A queue with a non-NULL head but NULL tail cannot
arise from the initialized state; the C code would fault there, and the
model leaves the heap unchanged on that branch.) -/
def scheduler_enqueue (s : SchedState) (task : Option Nat) : SchedState :=
  match task with
  | none => s
  | some t =>
    if (s.tasks t).state ≠ TaskState.ready then s
    else
      let priority := (s.tasks t).priority
      let queue := s.ready priority.val
      let s1 :=
        match queue.head with
        | none =>
          let sq := upd_queue s priority.val { queue with head := some t, tail := some t }
          upd_task sq t { (sq.tasks t) with next := none, prev := none }
        | some _ =>
          let sa := upd_task s t { (s.tasks t) with prev := queue.tail, next := none }
          let sb :=
            match queue.tail with
            | some tl => upd_task sa tl { (sa.tasks tl) with next := some t }
            | none => sa
          upd_queue sb priority.val { (sb.ready priority.val) with tail := some t }
      let s2 := upd_queue s1 priority.val
        { (s1.ready priority.val) with count := (s1.ready priority.val).count + 1 }
      set_priority_bit s2 priority

/-- scheduler_dequeue: NULL is ignored; an empty queue or a task with no
links that is neither head nor tail returns unchanged; otherwise unlink,
null the links, decrement the count and clear the priority bit when the
queue became empty.  All reads of `task->prev`/`task->next` happen
before those fields are nulled, as in the source. -/
def scheduler_dequeue (s : SchedState) (task : Option Nat) : SchedState :=
  match task with
  | none => s
  | some t =>
    let priority := (s.tasks t).priority
    let queue := s.ready priority.val
    if queue.count = 0 then s
    else if queue.head ≠ some t ∧ queue.tail ≠ some t ∧
            (s.tasks t).prev = none ∧ (s.tasks t).next = none then s
    else
      let tprev := (s.tasks t).prev
      let tnext := (s.tasks t).next
      let s1 :=
        match tprev with
        | some pr => upd_task s pr { (s.tasks pr) with next := tnext }
        | none => upd_queue s priority.val { (s.ready priority.val) with head := tnext }
      let s2 :=
        match tnext with
        | some nx => upd_task s1 nx { (s1.tasks nx) with prev := tprev }
        | none => upd_queue s1 priority.val { (s1.ready priority.val) with tail := tprev }
      let s3 := upd_task s2 t { (s2.tasks t) with next := none, prev := none }
      let s4 := upd_queue s3 priority.val
        { (s3.ready priority.val) with count := (s3.ready priority.val).count - 1 }
      if (s4.ready priority.val).count = 0 then clear_priority_bit s4 priority else s4

/-- __builtin_clz for a non-zero 32-bit word: 31 − ⌊log₂ w⌋ leading
zeros. -/
def clz32 (w : Nat) : Nat := 31 - Nat.log2 w

/-- The word scan of find_highest_priority: `for (i = 7; i >= 0; i--)`,
the fuel argument is `i + 1`.  The first non-zero word yields
`i*32 + (31 - clz(word))`; an all-zero bitmap yields
SCHED_IDLE_PRIORITY. -/
def find_highest_scan (bm : Nat → Nat) : Nat → Nat
  | 0 => SCHED_IDLE_PRIORITY
  | i + 1 => if bm i ≠ 0 then i * 32 + (31 - clz32 (bm i)) else find_highest_scan bm i

/-- find_highest_priority. -/
def find_highest_priority (s : SchedState) : Nat :=
  find_highest_scan s.priority_bitmap 8

/-- scheduler_pick_next: head of the highest-priority queue, falling
back to `task_get_idle()` (the `idle` argument, `none` when task_init
failed) when that queue is empty. -/
def scheduler_pick_next (s : SchedState) (idle : Option Nat) : Option Nat :=
  let priority := find_highest_priority s
  match (s.ready priority).head with
  | some next => some next
  | none => idle

/-- scheduler_init: zeroed scheduler state, then the idle task is forced
READY and enqueued.  `current_task` points at the static bootstrap task,
which lives outside the modelled heap, hence `none`. -/
def scheduler_init (tasks0 : Nat → TaskRec) (idle : Nat) : SchedState :=
  let s : SchedState :=
    { ready := fun _ => ⟨none, none, 0⟩
      priority_bitmap := fun _ => 0
      tasks := tasks0
      current_task := none
      context_switches := 0
      ticks := 0
      need_resched := false }
  let s1 := upd_task s idle { (s.tasks idle) with state := TaskState.ready }
  scheduler_enqueue s1 (some idle)

/-- An enqueue or dequeue call, with its (possibly NULL) task-pointer
argument. -/
inductive SchedOp
  | enq (task : Option Nat)
  | deq (task : Option Nat)

/-- Run a sequence of enqueue/dequeue calls. -/
def sched_run (s : SchedState) : List SchedOp → SchedState
  | [] => s
  | op :: rest =>
    sched_run
      (match op with
        | .enq t => scheduler_enqueue s t
        | .deq t => scheduler_dequeue s t) rest

/-- Bit `p` of the 256-bit summary bitmap. -/
def priority_bit (s : SchedState) (p : Nat) : Bool :=
  Nat.testBit (s.priority_bitmap (p / 32)) (p % 32)

/-- The claimed invariant: bit `p` of the summary bitmap is set iff the
ready queue at priority `p` has non-zero count. -/
def BitmapInv (s : SchedState) : Prop :=
  ∀ p, p < 256 → (priority_bit s p = true ↔ (s.ready p).count ≠ 0)

/-- A concrete scheduler state: the single task 42 queued at priority
255, summary word 7 holding bit 31. -/
def w_sched_one : SchedState :=
  { ready := fun p => if p = 255 then ⟨some 42, some 42, 1⟩ else ⟨none, none, 0⟩
    priority_bitmap := fun i => if i = 7 then 0x80000000 else 0
    tasks := fun _ => ⟨TaskState.ready, 255, none, none⟩
    current_task := none
    context_switches := 0
    ticks := 0
    need_resched := false }

/-- A concrete scheduler state with an entirely empty ready set. -/
def w_sched_empty : SchedState :=
  { ready := fun _ => ⟨none, none, 0⟩
    priority_bitmap := fun _ => 0
    tasks := fun _ => ⟨TaskState.ready, 0, none, none⟩
    current_task := none
    context_switches := 0
    ticks := 0
    need_resched := false }

/-! ## MMU (src/arch/x86/mmu.c) -/

/-- x86 page-directory entry flags. -/
def PDE_PRESENT : Nat := 1 <<< 0

/-- PDE_WRITABLE. -/
def PDE_WRITABLE : Nat := 1 <<< 1

/-- PDE_USER. -/
def PDE_USER : Nat := 1 <<< 2

/-- x86 page-table entry flags. -/
def PTE_PRESENT : Nat := 1 <<< 0

/-- PTE_WRITABLE. -/
def PTE_WRITABLE : Nat := 1 <<< 1

/-- PTE_USER. -/
def PTE_USER : Nat := 1 <<< 2

/-- PTE_NOCACHE. -/
def PTE_NOCACHE : Nat := 1 <<< 4

/-- ENTRIES_PER_TABLE. -/
def ENTRIES_PER_TABLE : Nat := 1024

/-- PD_INDEX(virt) = (virt >> 22) & 0x3FF. -/
def PD_INDEX (virt : Nat) : Nat := (virt >>> 22) &&& 0x3FF

/-- PT_INDEX(virt) = (virt >> 12) & 0x3FF. -/
def PT_INDEX (virt : Nat) : Nat := (virt >>> 12) &&& 0x3FF

/-- PAGE_FRAME(entry) = entry & ~0xFFF; the uint32 complement of 0xFFF
is the literal mask 0xFFFFF000. -/
def PAGE_FRAME (entry : Nat) : Nat := entry &&& 0xFFFFF000

/-- PAGE_SIZE (include/kernel/mmu.h). -/
def PAGE_SIZE : Nat := 4096

/-- IS_PAGE_ALIGNED(addr) = (addr & (PAGE_SIZE-1)) == 0. -/
def IS_PAGE_ALIGNED (addr : Nat) : Bool := addr &&& (PAGE_SIZE - 1) == 0

/-- Generic MMU flags (include/kernel/mmu.h). -/
def MMU_PRESENT : Nat := 1 <<< 0

/-- MMU_WRITABLE. -/
def MMU_WRITABLE : Nat := 1 <<< 1

/-- MMU_USER. -/
def MMU_USER : Nat := 1 <<< 2

/-- MMU_NOCACHE. -/
def MMU_NOCACHE : Nat := 1 <<< 3

/-- MMU_EXEC (no NX on 32-bit x86: not translated). -/
def MMU_EXEC : Nat := 1 <<< 4

/-- flags_to_x86: translate generic MMU flags to x86 PTE bits. -/
def flags_to_x86 (flags : Nat) : Nat :=
  let f1 := if flags &&& MMU_PRESENT ≠ 0 then PTE_PRESENT else 0
  let f2 := if flags &&& MMU_WRITABLE ≠ 0 then PTE_WRITABLE else 0
  let f3 := if flags &&& MMU_USER ≠ 0 then PTE_USER else 0
  let f4 := if flags &&& MMU_NOCACHE ≠ 0 then PTE_NOCACHE else 0
  f1 ||| f2 ||| f3 ||| f4

/-- struct page_table: the handle referencing the page directory.  Under
the identity mapping in force, `page_directory` and `pd_phys` denote the
same frame, so one physical address suffices. -/
structure PageTableHandle where
  pd_phys : Nat
deriving DecidableEq, Inhabited

/-- The machine state the MMU mutates: physical memory holding
directories and page tables (frame base address ↦ 1024-entry uint32
array), and the PMM that page-table frames are allocated from.  TLB
invalidations do not affect this state. -/
structure MachineState where
  mem : Nat → Nat → Nat
  pmm : PmmState

/-- Write one 32-bit entry of the frame at `base`. -/
def write_entry (m : MachineState) (base idx val : Nat) : MachineState :=
  { m with mem := fun b =>
      if b = base then (fun i => if i = idx then val else m.mem b i)
      else m.mem b }

/-- Zero out the frame at `base` (the page-table initialization loop). -/
def zero_frame (m : MachineState) (base : Nat) : MachineState :=
  { m with mem := fun b => if b = base then (fun _ => 0) else m.mem b }

/-- mmu_map_page: NULL handle or unaligned addresses fail with NULL; an
absent directory slot first receives a freshly allocated, zeroed page
table installed with (present|writable|user) — failure of that
allocation fails the map; then the page-table slot is written and the
TLB entry invalidated.  Returns the mapped virtual address on success,
paired with the successor machine state. -/
def mmu_map_page (m : MachineState) (pt : Option PageTableHandle)
    (phys virt flags : Nat) : Option Nat × MachineState :=
  match pt with
  | none => (none, m)
  | some h =>
    if !IS_PAGE_ALIGNED phys || !IS_PAGE_ALIGNED virt then (none, m)
    else
      let pd_index := PD_INDEX virt
      let pt_index := PT_INDEX virt
      if m.mem h.pd_phys pd_index &&& PDE_PRESENT = 0 then
        let pt_phys := (pmm_alloc_page m.pmm).1
        let ma := { m with pmm := (pmm_alloc_page m.pmm).2 }
        if pt_phys = 0 then (none, ma)
        else
          let m1 := zero_frame ma pt_phys
          let m2 := write_entry m1 h.pd_phys pd_index
                      (pt_phys ||| PDE_PRESENT ||| PDE_WRITABLE ||| PDE_USER)
          let table := PAGE_FRAME (m2.mem h.pd_phys pd_index)
          (some virt, write_entry m2 table pt_index (phys ||| flags_to_x86 flags))
      else
        let table := PAGE_FRAME (m.mem h.pd_phys pd_index)
        (some virt, write_entry m table pt_index (phys ||| flags_to_x86 flags))

/-- mmu_unmap_page: NULL handle or unaligned address is a no-op; an
absent directory slot is a no-op; otherwise the page-table slot is
zeroed and the TLB entry invalidated.  Page tables are never freed. -/
def mmu_unmap_page (m : MachineState) (pt : Option PageTableHandle)
    (virt : Nat) : MachineState :=
  match pt with
  | none => m
  | some h =>
    if !IS_PAGE_ALIGNED virt then m
    else
      let pd_index := PD_INDEX virt
      let pt_index := PT_INDEX virt
      if m.mem h.pd_phys pd_index &&& PDE_PRESENT = 0 then m
      else
        let table := PAGE_FRAME (m.mem h.pd_phys pd_index)
        write_entry m table pt_index 0

/-! ## Task creation (src/core/task.c) -/

/-- The fields of the TCB that `task_create_kernel_thread` initializes
and the claims observe.  The stack priming (wrapper-args record,
argument slot, zero return address), the saved context (segments
0x08/0x10, EFLAGS 0x202, wrapper entry point) and the bounded name copy
are writes into the allocated frames with no effect on this state. -/
structure TCB where
  task_id : Nat
  state : TaskState
  priority : Fin 256
  kernel_stack : Nat
  kernel_stack_size : Nat
deriving DecidableEq, Inhabited

/-- task_create_kernel_thread(name, entry, arg, priority, stack_size),
modelled over the PMM state and the `next_task_id` counter; the entry
pointer is observed only through its NULL-ness.  Returns the created
task (if any), the successor PMM state, and the successor id counter.
Mirrors the source order: entry check, strict `stack_size == 4096`
check, TCB frame allocation, id assignment, stack frame allocation
(freeing the TCB frame on failure). -/
def task_create_kernel_thread (pmm : PmmState) (next_task_id : Nat)
    (entry_is_null : Bool) (priority : Fin 256) (stack_size : Nat) :
    Option TCB × PmmState × Nat :=
  if entry_is_null then (none, pmm, next_task_id)
  else if stack_size ≠ 4096 then (none, pmm, next_task_id)
  else
    let task_addr := (pmm_alloc_page pmm).1
    let pmm1 := (pmm_alloc_page pmm).2
    if task_addr = 0 then (none, pmm1, next_task_id)
    else
      let stack_addr := (pmm_alloc_page pmm1).1
      let pmm2 := (pmm_alloc_page pmm1).2
      if stack_addr = 0 then (none, pmm_free_page pmm2 task_addr, next_task_id + 1)
      else
        (some { task_id := next_task_id
                state := TaskState.ready
                priority := priority
                kernel_stack := stack_addr
                kernel_stack_size := stack_size },
         pmm2, next_task_id + 1)

/-! ## Syscall dispatch (src/core/syscall.c, include/kernel/syscall.h) -/

/-- ENOSYS = 38: function not implemented. -/
def ENOSYS : Int := 38

/-- SYS_EXIT. -/
def SYS_EXIT : Nat := 1

/-- SYS_YIELD. -/
def SYS_YIELD : Nat := 2

/-- SYS_GETPID. -/
def SYS_GETPID : Nat := 3

/-- SYS_SLEEP_US. -/
def SYS_SLEEP_US : Nat := 4

/-- MAX_SYSCALLS. -/
def MAX_SYSCALLS : Nat := 256

/-- syscall_fn_t: five long arguments to a long return. -/
def SyscallFn : Type := Int → Int → Int → Int → Int → Int

/-- sys_exit(status): marks the current task zombie and schedules; in
the kernel it never returns, so the dispatcher-level return value (the
C stub ends in `return 0`) is never observed. -/
def sys_exit : SyscallFn := fun _ _ _ _ _ => 0

/-- sys_yield: task_yield(), then 0. -/
def sys_yield : SyscallFn := fun _ _ _ _ _ => 0

/-- sys_getpid: the scheduler's current task id, −1 when the
current-task pointer is NULL. -/
def sys_getpid (current : Option Nat) : SyscallFn :=
  fun _ _ _ _ _ =>
    match current with
    | none => -1
    | some id => (id : Int)

/-- sys_sleep_us: stub, −ENOSYS. -/
def sys_sleep_us : SyscallFn := fun _ _ _ _ _ => -ENOSYS

/-- The statically initialized syscall table: entry 0 reserved (NULL),
entries 1–4 populated, everything else NULL.  `current` is the
scheduler's current-task pointer that getpid reads. -/
def syscall_table (current : Option Nat) (n : Nat) : Option SyscallFn :=
  if n = SYS_EXIT then some sys_exit
  else if n = SYS_YIELD then some sys_yield
  else if n = SYS_GETPID then some (sys_getpid current)
  else if n = SYS_SLEEP_US then some sys_sleep_us
  else none

/-- syscall_handler(num, arg0..arg4): reject numbers ≥ MAX_SYSCALLS with
−ENOSYS, reject NULL table entries with −ENOSYS, otherwise call the
entry and return its value. -/
def syscall_handler (current : Option Nat) (syscall_num : Nat)
    (arg0 arg1 arg2 arg3 arg4 : Int) : Int :=
  if MAX_SYSCALLS ≤ syscall_num then -ENOSYS
  else
    match syscall_table current syscall_num with
    | none => -ENOSYS
    | some f => f arg0 arg1 arg2 arg3 arg4

/-- The S1 memory map: [0, 0xA0000) available, [0xA0000, 0x100000)
reserved, [0x100000, 0x8000000) available. -/
def s1_info : MultibootInfo :=
  ⟨0x40, [⟨0, 0xA0000, 1⟩, ⟨0xA0000, 0x60000, 2⟩, ⟨0x100000, 0x7F00000, 1⟩]⟩

/-- The PMM state after booting with the S1 memory map, the kernel
image at the host-test mock bounds 1 MiB–2 MiB (src/mm/pmm.c under
HOST_TEST). -/
def s1_state : PmmState :=
  pmm_init MULTIBOOT_MAGIC (some s1_info) 0x100000 0x200000

/-! ### Lemmas about the bitmap scan -/

theorem bitmap_find_free_from_eq (bm : Nat → Bool) :
    ∀ (fuel i j : Nat), i ≤ j → j < i + fuel → bm j = false →
      (∀ k, i ≤ k → k < j → bm k = true) →
      bitmap_find_free_from bm i fuel = j := by
  intro fuel
  induction fuel with
  | zero => intro i j hij hlt _ _; omega
  | succ n ih =>
    intro i j hij hlt hj hset
    unfold bitmap_find_free_from
    rcases Nat.eq_or_lt_of_le hij with rfl | hlt2
    · simp [hj]
    · rw [hset i (Nat.le_refl i) hlt2]
      simp only [if_true]
      exact ih (i + 1) j hlt2 (by omega) hj (fun k hk1 hk2 => hset k (by omega) hk2)

theorem bitmap_find_free_from_all_set (bm : Nat → Bool) :
    ∀ (fuel i : Nat), (∀ k, i ≤ k → bm k = true) →
      bitmap_find_free_from bm i fuel = MAX_FRAMES := by
  intro fuel
  induction fuel with
  | zero => intro i _; rfl
  | succ n ih =>
    intro i hset
    unfold bitmap_find_free_from
    rw [hset i (Nat.le_refl i)]
    simp only [if_true]
    exact ih (i + 1) (fun k hk => hset k (by omega))

theorem mul_frame_size_and_mask (j : Nat) : (j * FRAME_SIZE) &&& (FRAME_SIZE - 1) = 0 := by
  have h : FRAME_SIZE - 1 = 2 ^ 12 - 1 := by norm_num [FRAME_SIZE]
  rw [h, Nat.and_pow_two_sub_one_eq_mod]
  simp [FRAME_SIZE]

theorem pmm_alloc_page_success_shape (s : PmmState) (j : Nat)
    (hinit : s.inited = true) (hnn : s.bitmap_is_null = false)
    (hfree : s.free_frames ≠ 0) (hjlt : j < MAX_FRAMES)
    (hj : s.frame_bitmap j = false) (hmin : ∀ k, k < j → s.frame_bitmap k = true) :
    pmm_alloc_page s =
      (j * FRAME_SIZE, { bitmap_set s j with free_frames := s.free_frames - 1 }) := by
  have hfind : bitmap_find_free s = j :=
    bitmap_find_free_from_eq s.frame_bitmap MAX_FRAMES 0 j (Nat.zero_le j)
      (by omega) hj (fun k _ hk => hmin k hk)
  unfold pmm_alloc_page
  rw [hinit, hnn]
  simp only [Bool.not_true, Bool.false_or, Bool.false_eq_true, if_false, hfind,
    mul_frame_size_and_mask, ne_eq, not_true_eq_false, not_false_eq_true]
  rw [if_neg hfree, if_neg (by omega)]

/-- C2: with at least one free frame (a clear bit at the least index `j`,
and a non-zero free count), `pmm_alloc_page` returns `j * 4096`, sets bit
`j` leaving every other bit unchanged, and decrements the free count;
with a zero free count it returns the sentinel 0 and the whole state is
unchanged. -/
theorem pmm_alloc_page_spec (s : PmmState) (j : Nat)
    (hinit : s.inited = true) (hnn : s.bitmap_is_null = false) :
    (s.free_frames ≠ 0 → j < MAX_FRAMES → s.frame_bitmap j = false →
      (∀ k, k < j → s.frame_bitmap k = true) →
      (pmm_alloc_page s).1 = j * 4096 ∧
      (pmm_alloc_page s).2.frame_bitmap j = true ∧
      (∀ k, k ≠ j → (pmm_alloc_page s).2.frame_bitmap k = s.frame_bitmap k) ∧
      (pmm_alloc_page s).2.free_frames = s.free_frames - 1) ∧
    (s.free_frames = 0 → pmm_alloc_page s = (0, s)) := by
  constructor
  · intro hfree hjlt hj hmin
    rw [pmm_alloc_page_success_shape s j hinit hnn hfree hjlt hj hmin]
    exact ⟨rfl, by simp [bitmap_set], fun k hk => by simp [bitmap_set, hk], rfl⟩
  · intro hzero
    unfold pmm_alloc_page
    rw [hinit, hnn]
    simp [hzero]

/-- Witness for C2: on a concrete state whose least clear bit is frame 1,
the allocator returns 0x1000, marks frame 1, keeps frame 2 free, and
drops the free count from 2 to 1; a variant with zero free count returns
(0, unchanged). -/
theorem pmm_alloc_page_spec_witness :
    (pmm_alloc_page w_pmm_two_free).1 = 1 * 4096 ∧
    (pmm_alloc_page w_pmm_two_free).2.frame_bitmap 1 = true ∧
    (pmm_alloc_page w_pmm_two_free).2.frame_bitmap 2 = false ∧
    (pmm_alloc_page w_pmm_two_free).2.free_frames = 1 ∧
    pmm_alloc_page w_pmm_no_free = (0, w_pmm_no_free) := by
  have h := pmm_alloc_page_spec w_pmm_two_free 1 rfl rfl
  have h0 := pmm_alloc_page_spec w_pmm_no_free 1 rfl rfl
  have hmin : ∀ k, k < 1 → w_pmm_two_free.frame_bitmap k = true := by
    intro k hk
    interval_cases k
    rfl
  have hmain := h.1 (by decide) (by decide) rfl hmin
  exact ⟨hmain.1, hmain.2.1, (hmain.2.2.1 2 (by decide)).trans rfl, hmain.2.2.2, h0.2 rfl⟩

theorem pmm_alloc_page_result_cases (s : PmmState) :
    (pmm_alloc_page s).1 = 0 ∨
    ∃ frame, frame < MAX_FRAMES ∧ (pmm_alloc_page s).1 = frame * FRAME_SIZE := by
  simp only [pmm_alloc_page]
  split_ifs with h1 h2 h3 h4
  · left; rfl
  · left; rfl
  · left; rfl
  · left; rfl
  · right; exact ⟨bitmap_find_free s, by omega, rfl⟩

/-- C3 (amended): every non-zero address returned by `pmm_alloc_page`
is 4 KiB-aligned and its frame index is below MAX_FRAMES, the number of
manageable frames (the bound `addr / 4096 < total_frames` claimed by the
spec does not hold, because `total_frames` counts available frames and a
memory map with holes makes valid frame indices exceed that count). -/
theorem pmm_alloc_page_aligned_in_range (s : PmmState)
    (h : (pmm_alloc_page s).1 ≠ 0) :
    (pmm_alloc_page s).1 % 4096 = 0 ∧ (pmm_alloc_page s).1 / 4096 < MAX_FRAMES := by
  rcases pmm_alloc_page_result_cases s with h0 | ⟨frame, hf, he⟩
  · exact absurd h0 h
  · rw [he]
    constructor
    · simp [FRAME_SIZE]
    · have hdiv : frame * FRAME_SIZE / 4096 = frame :=
        Nat.mul_div_cancel frame (by norm_num [FRAME_SIZE])
      rw [hdiv]
      exact hf

/-- Witness for C3 (amended): the allocation out of `w_pmm_two_free`
returns the non-zero address 0x1000, which is aligned and in range. -/
theorem pmm_alloc_page_aligned_in_range_witness :
    (pmm_alloc_page w_pmm_two_free).1 ≠ 0 ∧
    (pmm_alloc_page w_pmm_two_free).1 % 4096 = 0 ∧
    (pmm_alloc_page w_pmm_two_free).1 / 4096 < MAX_FRAMES :=
  ⟨by decide, pmm_alloc_page_aligned_in_range w_pmm_two_free (by decide)⟩

set_option maxRecDepth 100000 in
set_option maxHeartbeats 2000000 in
/-- Counterexample for C3 as stated: from the two-frame memory map
`c3_state` (total_frames = 2, valid frames 1 and 2), the second
allocation returns the non-zero address 0x2000, whose frame index
2 is not `< total_frames`. -/
theorem pmm_alloc_page_lt_total_counterexample :
    (pmm_alloc_page (pmm_alloc_page c3_state).2).1 = 0x2000 ∧
    (pmm_alloc_page (pmm_alloc_page c3_state).2).1 ≠ 0 ∧
    ¬ ((pmm_alloc_page (pmm_alloc_page c3_state).2).1 / 4096 <
        (pmm_alloc_page (pmm_alloc_page c3_state).2).2.total_frames) := by
  decide

/-- C4: `pmm_free_page` on a frame whose bit is already clear is a
no-op: the returned state is the argument state unchanged (bitmap, free,
reserved and total counts included), so a frame cannot be double-freed. -/
theorem pmm_free_page_already_free (s : PmmState) (page : Nat)
    (h : s.frame_bitmap (page / FRAME_SIZE) = false) :
    pmm_free_page s page = s := by
  simp [pmm_free_page, bitmap_test, h]

/-- Witness for C4: freeing the free frame 1 (address 0x1000) of
`w_pmm_two_free` leaves the state untouched. -/
theorem pmm_free_page_already_free_witness :
    w_pmm_two_free.frame_bitmap (0x1000 / FRAME_SIZE) = false ∧
    pmm_free_page w_pmm_two_free 0x1000 = w_pmm_two_free :=
  ⟨by decide, pmm_free_page_already_free w_pmm_two_free 0x1000 (by decide)⟩

/-- C10: calling `pmm_alloc_page` before `pmm_init` has completed (the
initialization flag still clear) returns the sentinel 0 and leaves the
state — bitmap and all frame counters — unchanged. -/
theorem pmm_alloc_page_before_init (s : PmmState) (h : s.inited = false) :
    pmm_alloc_page s = (0, s) := by
  unfold pmm_alloc_page
  rw [h]
  simp

/-- Witness for C10: allocation out of the pre-initialization state
fails with the sentinel 0 and no state change. -/
theorem pmm_alloc_page_before_init_witness :
    pmm_alloc_page w_pmm_uninited = (0, w_pmm_uninited) :=
  pmm_alloc_page_before_init w_pmm_uninited (by decide)

/-! ### Scheduler: bitmap bit lemmas -/

theorem priority_bit_set_priority_bit (s : SchedState) (pr : Fin 256) (p : Nat) :
    priority_bit (set_priority_bit s pr) p =
      (priority_bit s p || decide (p = pr.val)) := by
  have hpr := pr.isLt
  unfold priority_bit set_priority_bit
  simp only
  by_cases hw : p / 32 = pr.val / 32
  · rw [if_pos hw, Nat.testBit_or, Nat.shiftLeft_eq, one_mul, Nat.testBit_two_pow]
    have hiff : pr.val % 32 = p % 32 ↔ p = pr.val := by omega
    by_cases hp : p = pr.val
    · simp [hp]
    · simp [hp, hiff]
  · rw [if_neg hw]
    have hne : ¬ p = pr.val := by omega
    simp [hne]

theorem priority_bit_clear_priority_bit (s : SchedState) (pr : Fin 256) (p : Nat) :
    priority_bit (clear_priority_bit s pr) p =
      (priority_bit s p && !decide (p = pr.val)) := by
  have hpr := pr.isLt
  unfold priority_bit clear_priority_bit
  simp only
  by_cases hw : p / 32 = pr.val / 32
  · rw [if_pos hw, Nat.testBit_and, Nat.testBit_xor, Nat.shiftLeft_eq, one_mul,
      Nat.testBit_two_pow, Nat.testBit_two_pow_sub_one]
    have h32 : p % 32 < 32 := Nat.mod_lt p (by norm_num)
    have hiff : pr.val % 32 = p % 32 ↔ p = pr.val := by omega
    by_cases hp : p = pr.val
    · simp [hp, h32]
      intro _
      omega
    · simp [hp, hiff, h32]
  · rw [if_neg hw]
    have hne : ¬ p = pr.val := by omega
    simp [hne]

/-! ### Scheduler: effect of enqueue/dequeue on counts and bitmap -/

theorem scheduler_enqueue_not_ready (s : SchedState) (t : Nat)
    (h : ¬ (s.tasks t).state = TaskState.ready) :
    scheduler_enqueue s (some t) = s := by
  simp [scheduler_enqueue, h]

theorem scheduler_enqueue_ready_count (s : SchedState) (t p : Nat)
    (h : (s.tasks t).state = TaskState.ready) :
    ((scheduler_enqueue s (some t)).ready p).count =
      if p = (s.tasks t).priority.val then (s.ready p).count + 1
      else (s.ready p).count := by
  cases hh : (s.ready (s.tasks t).priority.val).head with
  | none =>
    by_cases hp : p = (s.tasks t).priority.val <;>
      simp [scheduler_enqueue, h, hh, upd_queue, upd_task, set_priority_bit, hp]
  | some hd =>
    cases ht : (s.ready (s.tasks t).priority.val).tail with
    | none =>
      by_cases hp : p = (s.tasks t).priority.val <;>
        simp [scheduler_enqueue, h, hh, ht, upd_queue, upd_task, set_priority_bit, hp]
    | some tl =>
      by_cases hp : p = (s.tasks t).priority.val <;>
        simp [scheduler_enqueue, h, hh, ht, upd_queue, upd_task, set_priority_bit, hp]

theorem scheduler_enqueue_bitmap_eq (s : SchedState) (t : Nat)
    (h : (s.tasks t).state = TaskState.ready) :
    (scheduler_enqueue s (some t)).priority_bitmap =
      (set_priority_bit s (s.tasks t).priority).priority_bitmap := by
  funext w
  cases hh : (s.ready (s.tasks t).priority.val).head with
  | none =>
    simp [scheduler_enqueue, h, hh, upd_queue, upd_task, set_priority_bit]
  | some hd =>
    cases ht : (s.ready (s.tasks t).priority.val).tail with
    | none =>
      simp [scheduler_enqueue, h, hh, ht, upd_queue, upd_task, set_priority_bit]
    | some tl =>
      simp [scheduler_enqueue, h, hh, ht, upd_queue, upd_task, set_priority_bit]

theorem scheduler_dequeue_empty_queue (s : SchedState) (t : Nat)
    (h : (s.ready (s.tasks t).priority.val).count = 0) :
    scheduler_dequeue s (some t) = s := by
  simp [scheduler_dequeue, h]

theorem scheduler_dequeue_not_linked (s : SchedState) (t : Nat)
    (hg : (s.ready (s.tasks t).priority.val).head ≠ some t ∧
          (s.ready (s.tasks t).priority.val).tail ≠ some t ∧
          (s.tasks t).prev = none ∧ (s.tasks t).next = none) :
    scheduler_dequeue s (some t) = s := by
  by_cases hc : (s.ready (s.tasks t).priority.val).count = 0
  · simp [scheduler_dequeue, hc]
  · simp [scheduler_dequeue, hc, hg]

theorem scheduler_dequeue_main_count (s : SchedState) (t p : Nat)
    (hc : ¬ (s.ready (s.tasks t).priority.val).count = 0)
    (hg : ¬ ((s.ready (s.tasks t).priority.val).head ≠ some t ∧
             (s.ready (s.tasks t).priority.val).tail ≠ some t ∧
             (s.tasks t).prev = none ∧ (s.tasks t).next = none)) :
    ((scheduler_dequeue s (some t)).ready p).count =
      if p = (s.tasks t).priority.val then (s.ready p).count - 1
      else (s.ready p).count := by
  simp only [scheduler_dequeue]
  rw [if_neg hc, if_neg hg]
  by_cases hz : (s.ready (s.tasks t).priority.val).count - 1 = 0 <;>
    by_cases hp : p = (s.tasks t).priority.val <;>
      cases hprev : (s.tasks t).prev <;> cases hnext : (s.tasks t).next <;>
        simp [hprev, hnext, upd_queue, upd_task, clear_priority_bit, hz, hp]

theorem scheduler_dequeue_main_bitmap (s : SchedState) (t : Nat)
    (hc : ¬ (s.ready (s.tasks t).priority.val).count = 0)
    (hg : ¬ ((s.ready (s.tasks t).priority.val).head ≠ some t ∧
             (s.ready (s.tasks t).priority.val).tail ≠ some t ∧
             (s.tasks t).prev = none ∧ (s.tasks t).next = none)) :
    (scheduler_dequeue s (some t)).priority_bitmap =
      if (s.ready (s.tasks t).priority.val).count - 1 = 0 then
        (clear_priority_bit s (s.tasks t).priority).priority_bitmap
      else s.priority_bitmap := by
  simp only [scheduler_dequeue]
  rw [if_neg hc, if_neg hg]
  by_cases hz : (s.ready (s.tasks t).priority.val).count - 1 = 0 <;>
    cases hprev : (s.tasks t).prev <;> cases hnext : (s.tasks t).next <;>
      simp [hprev, hnext, upd_queue, upd_task, clear_priority_bit, hz]

/-! ### Scheduler: the summary-bitmap invariant (C1) -/

theorem BitmapInv_enqueue (s : SchedState) (task : Option Nat)
    (h : BitmapInv s) : BitmapInv (scheduler_enqueue s task) := by
  cases task with
  | none => exact h
  | some t =>
    by_cases hst : (s.tasks t).state = TaskState.ready
    · intro p hp
      have hbit : priority_bit (scheduler_enqueue s (some t)) p =
          priority_bit (set_priority_bit s (s.tasks t).priority) p := by
        unfold priority_bit
        rw [scheduler_enqueue_bitmap_eq s t hst]
      rw [hbit, priority_bit_set_priority_bit, scheduler_enqueue_ready_count s t p hst]
      by_cases hpp : p = (s.tasks t).priority.val
      · simp [hpp]
      · simp [hpp, h p hp]
    · rw [scheduler_enqueue_not_ready s t hst]
      exact h

theorem BitmapInv_dequeue (s : SchedState) (task : Option Nat)
    (h : BitmapInv s) : BitmapInv (scheduler_dequeue s task) := by
  cases task with
  | none => exact h
  | some t =>
    by_cases hc : (s.ready (s.tasks t).priority.val).count = 0
    · rw [scheduler_dequeue_empty_queue s t hc]; exact h
    · by_cases hg : (s.ready (s.tasks t).priority.val).head ≠ some t ∧
          (s.ready (s.tasks t).priority.val).tail ≠ some t ∧
          (s.tasks t).prev = none ∧ (s.tasks t).next = none
      · rw [scheduler_dequeue_not_linked s t hg]; exact h
      · intro p hp
        have hbit : priority_bit (scheduler_dequeue s (some t)) p =
            if (s.ready (s.tasks t).priority.val).count - 1 = 0 then
              priority_bit (clear_priority_bit s (s.tasks t).priority) p
            else priority_bit s p := by
          unfold priority_bit
          rw [scheduler_dequeue_main_bitmap s t hc hg]
          by_cases hz : (s.ready (s.tasks t).priority.val).count - 1 = 0 <;> simp [hz]
        rw [hbit, scheduler_dequeue_main_count s t p hc hg]
        by_cases hz : (s.ready (s.tasks t).priority.val).count - 1 = 0 <;>
          by_cases hpp : p = (s.tasks t).priority.val
        · subst hpp
          simp [hz, priority_bit_clear_priority_bit]
        · simp [hz, priority_bit_clear_priority_bit, hpp, h p hp]
        · subst hpp
          have hb := (h _ hp).2 hc
          simp [hz, hb]
        · simp [hz, hpp, h p hp]

theorem BitmapInv_sched_run (ops : List SchedOp) :
    ∀ s : SchedState, BitmapInv s → BitmapInv (sched_run s ops) := by
  induction ops with
  | nil => intro s h; exact h
  | cons op rest ih =>
    intro s h
    cases op with
    | enq t => exact ih _ (BitmapInv_enqueue s t h)
    | deq t => exact ih _ (BitmapInv_dequeue s t h)

theorem BitmapInv_scheduler_init (tasks0 : Nat → TaskRec) (idle : Nat) :
    BitmapInv (scheduler_init tasks0 idle) := by
  unfold scheduler_init
  apply BitmapInv_enqueue
  intro p hp
  simp [priority_bit, upd_task]

/-- C1: starting from the initialized scheduler state, after any
sequence of scheduler_enqueue / scheduler_dequeue calls (on any task
heap and with any task-pointer arguments, NULL included), bit `p` of
the 256-bit summary bitmap is set iff the ready queue at priority `p`
has non-zero count. -/
theorem scheduler_bitmap_invariant (tasks0 : Nat → TaskRec) (idle : Nat)
    (ops : List SchedOp) (p : Nat) (hp : p < 256) :
    priority_bit (sched_run (scheduler_init tasks0 idle) ops) p = true ↔
    ((sched_run (scheduler_init tasks0 idle) ops).ready p).count ≠ 0 :=
  BitmapInv_sched_run ops (scheduler_init tasks0 idle)
    (BitmapInv_scheduler_init tasks0 idle) p hp

/-- Witness for C1: a concrete heap whose tasks sit at priority 3,
enqueueing task 1 and dequeueing it again; at priority 3 the bit and
the count agree. -/
theorem scheduler_bitmap_invariant_witness :
    priority_bit
      (sched_run (scheduler_init (fun _ => ⟨TaskState.ready, 3, none, none⟩) 0)
        [SchedOp.enq (some 1), SchedOp.deq (some 1)]) 3 = true ↔
    ((sched_run (scheduler_init (fun _ => ⟨TaskState.ready, 3, none, none⟩) 0)
        [SchedOp.enq (some 1), SchedOp.deq (some 1)]).ready 3).count ≠ 0 :=
  scheduler_bitmap_invariant (fun _ => ⟨TaskState.ready, 3, none, none⟩) 0
    [SchedOp.enq (some 1), SchedOp.deq (some 1)] 3 (by decide)

/-! ### Scheduler: pick_next and the highest-bit scan (C6) -/

theorem testBit_log2_self (w : Nat) (hw : w ≠ 0) : w.testBit w.log2 = true := by
  have h1 : 2 ^ w.log2 ≤ w := Nat.log2_self_le hw
  have h2 : w < 2 ^ (w.log2 + 1) := Nat.lt_log2_self
  have hpos : 0 < 2 ^ w.log2 := Nat.two_pow_pos _
  have hdiv : w / 2 ^ w.log2 = 1 := by
    have hlo : 1 ≤ w / 2 ^ w.log2 := (Nat.one_le_div_iff hpos).2 h1
    have hhi : w / 2 ^ w.log2 < 2 := by
      rw [Nat.div_lt_iff_lt_mul hpos]
      calc w < 2 ^ (w.log2 + 1) := h2
        _ = 2 * 2 ^ w.log2 := by ring
    omega
  rw [Nat.testBit_to_div_mod, hdiv]
  rfl

theorem le_log2_of_testBit (w j : Nat) (h : w.testBit j = true) : j ≤ w.log2 := by
  have hw : w ≠ 0 := by
    rintro rfl
    rw [Nat.zero_testBit] at h
    exact Bool.false_ne_true h
  have hle : 2 ^ j ≤ w := by
    by_contra hlt
    push_neg at hlt
    rw [Nat.testBit_lt_two_pow hlt] at h
    exact Bool.false_ne_true h
  exact (Nat.le_log2 hw).2 hle

theorem word_eq_zero_of_low_bits (w : Nat) (hlt : w < 2 ^ 32)
    (h : ∀ j, j < 32 → w.testBit j = false) : w = 0 := by
  apply Nat.eq_of_testBit_eq
  intro k
  rw [Nat.zero_testBit]
  by_cases hk : k < 32
  · exact h k hk
  · exact Nat.testBit_lt_two_pow
      (lt_of_lt_of_le hlt (Nat.pow_le_pow_right (by norm_num) (by omega)))

theorem find_highest_scan_zero (bm : Nat → Nat) :
    ∀ n : Nat, (∀ i, i < n → bm i = 0) →
      find_highest_scan bm n = SCHED_IDLE_PRIORITY := by
  intro n
  induction n with
  | zero => intro _; rfl
  | succ m ih =>
    intro h
    unfold find_highest_scan
    rw [if_neg (by simp [h m (by omega)])]
    exact ih (fun i hi => h i (by omega))

theorem find_highest_scan_eq (bm : Nat → Nat) (p : Nat) (hp : p < 256)
    (hw32 : ∀ i, bm i < 2 ^ 32)
    (hset : Nat.testBit (bm (p / 32)) (p % 32) = true)
    (hhigh : ∀ q, q < 256 → p < q → Nat.testBit (bm (q / 32)) (q % 32) = false) :
    ∀ n, p / 32 < n → n ≤ 8 → find_highest_scan bm n = p := by
  intro n
  induction n with
  | zero => omega
  | succ m ih =>
    intro h1 h2
    unfold find_highest_scan
    by_cases hm : p / 32 = m
    · have hw0 : bm m ≠ 0 := by
        intro h0
        rw [hm, h0, Nat.zero_testBit] at hset
        exact Bool.false_ne_true hset
      rw [if_pos hw0]
      have hlt32 : Nat.log2 (bm m) < 32 := (Nat.log2_lt hw0).2 (hw32 m)
      have hle : p % 32 ≤ Nat.log2 (bm m) := by
        apply le_log2_of_testBit
        rw [← hm]
        exact hset
      have hlog : Nat.log2 (bm m) = p % 32 := by
        by_contra hne
        have hgt : p % 32 < Nat.log2 (bm m) := by omega
        have hq := hhigh (m * 32 + Nat.log2 (bm m)) (by omega) (by omega)
        rw [(by omega : (m * 32 + Nat.log2 (bm m)) / 32 = m),
            (by omega : (m * 32 + Nat.log2 (bm m)) % 32 = Nat.log2 (bm m)),
            testBit_log2_self (bm m) hw0] at hq
        simp at hq
      unfold clz32
      omega
    · have hmgt : p / 32 < m := by omega
      have hzero : bm m = 0 := by
        apply word_eq_zero_of_low_bits (bm m) (hw32 m)
        intro j hj
        have hq := hhigh (m * 32 + j) (by omega) (by omega)
        rwa [(by omega : (m * 32 + j) / 32 = m),
             (by omega : (m * 32 + j) % 32 = j)] at hq
      rw [if_neg (by simp [hzero])]
      exact ih (by omega) (by omega)

/-- C6: `scheduler_pick_next` on an empty ready set (all-zero summary
words and empty priority-0 queue) returns the idle task; on a non-empty
ready set it returns the head of the queue whose priority is the highest
set bit of the summary, found by scanning words from index 7 down and
taking 31 − count-leading-zeros of the first non-zero word; and whenever
the idle task exists the result is never NULL. -/
theorem scheduler_pick_next_spec (s : SchedState) (idle : Option Nat) :
    ((∀ i, i < 8 → s.priority_bitmap i = 0) →
       (s.ready SCHED_IDLE_PRIORITY).head = none →
       scheduler_pick_next s idle = idle) ∧
    (∀ p t, p < 256 → priority_bit s p = true →
       (∀ q, q < 256 → p < q → priority_bit s q = false) →
       (∀ i, s.priority_bitmap i < 2 ^ 32) →
       (s.ready p).head = some t →
       find_highest_priority s = p ∧ scheduler_pick_next s idle = some t) ∧
    (idle ≠ none → scheduler_pick_next s idle ≠ none) := by
  refine ⟨?_, ?_, ?_⟩
  · intro hz hh
    unfold scheduler_pick_next find_highest_priority
    rw [find_highest_scan_zero s.priority_bitmap 8 hz]
    simp only [hh]
  · intro p t hp hset hhigh hw32 hhead
    have hfind : find_highest_priority s = p :=
      find_highest_scan_eq s.priority_bitmap p hp hw32 hset hhigh 8 (by omega) (by omega)
    refine ⟨hfind, ?_⟩
    unfold scheduler_pick_next
    rw [hfind]
    simp only [hhead]
  · intro hidle
    unfold scheduler_pick_next
    cases hh : (s.ready (find_highest_priority s)).head with
    | none => simpa [hh] using hidle
    | some nx => simp [hh]

/-- Witness for C6: on the empty state pick_next falls back to the idle
argument (task 7); on `w_sched_one` the scan finds priority 255 and
pick_next returns its queue head, task 42, which is not NULL. -/
theorem scheduler_pick_next_spec_witness :
    scheduler_pick_next w_sched_empty (some 7) = some 7 ∧
    find_highest_priority w_sched_one = 255 ∧
    scheduler_pick_next w_sched_one (some 7) = some 42 ∧
    scheduler_pick_next w_sched_one (some 7) ≠ none := by
  have h1 := (scheduler_pick_next_spec w_sched_empty (some 7)).1
    (fun _ _ => rfl) rfl
  have h2 := (scheduler_pick_next_spec w_sched_one (some 7)).2.1 255 42
    (by decide) (by decide)
    (fun q hq hgt => absurd hgt (by omega))
    (by
      intro i
      unfold w_sched_one
      dsimp only
      split <;> norm_num)
    (by decide)
  have h3 := (scheduler_pick_next_spec w_sched_one (some 7)).2.2 (by simp)
  exact ⟨h1, h2.1, h2.2, h3⟩

/-! ### Syscall dispatch (C7) -/

/-- C7: the dispatcher returns −38 (−ENOSYS) for every syscall number ≥
MAX_SYSCALLS = 256 and for every number whose table entry is NULL — in
particular for syscall 999 — and otherwise returns the looked-up
function's return value. -/
theorem syscall_handler_spec (current : Option Nat) (n : Nat)
    (a0 a1 a2 a3 a4 : Int) :
    (MAX_SYSCALLS ≤ n → syscall_handler current n a0 a1 a2 a3 a4 = -38) ∧
    (syscall_table current n = none →
      syscall_handler current n a0 a1 a2 a3 a4 = -38) ∧
    syscall_handler current 999 a0 a1 a2 a3 a4 = -38 ∧
    (∀ f, syscall_table current n = some f → ¬ MAX_SYSCALLS ≤ n →
      syscall_handler current n a0 a1 a2 a3 a4 = f a0 a1 a2 a3 a4) := by
  refine ⟨?_, ?_, ?_, ?_⟩
  · intro h
    simp [syscall_handler, h, ENOSYS]
  · intro h
    unfold syscall_handler
    split
    · norm_num [ENOSYS]
    · rw [h]
      norm_num [ENOSYS]
  · norm_num [syscall_handler, MAX_SYSCALLS, ENOSYS]
  · intro f hf hn
    unfold syscall_handler
    rw [if_neg hn, hf]

/-- Witness for C7: with current task 1, syscall 300 (≥ 256), the
unpopulated syscall 7 and syscall 999 all return −38, while syscall 3
dispatches to sys_getpid. -/
theorem syscall_handler_spec_witness :
    syscall_handler (some 1) 300 0 0 0 0 0 = -38 ∧
    syscall_handler (some 1) 7 0 0 0 0 0 = -38 ∧
    syscall_handler (some 1) 999 0 0 0 0 0 = -38 ∧
    syscall_handler (some 1) 3 0 0 0 0 0 = sys_getpid (some 1) 0 0 0 0 0 :=
  ⟨(syscall_handler_spec (some 1) 300 0 0 0 0 0).1 (by decide),
   (syscall_handler_spec (some 1) 7 0 0 0 0 0).2.1 rfl,
   (syscall_handler_spec (some 1) 999 0 0 0 0 0).2.2.1,
   (syscall_handler_spec (some 1) 3 0 0 0 0 0).2.2.2 (sys_getpid (some 1)) rfl
     (by decide)⟩

/-! ### Kernel-thread creation (C9) -/

theorem pmm_alloc_page_pos (s : PmmState)
    (hinit : s.inited = true) (hnn : s.bitmap_is_null = false)
    (hfree : s.free_frames ≠ 0) (h0 : s.frame_bitmap 0 = true)
    (k : Nat) (hk : k < MAX_FRAMES) (hkc : s.frame_bitmap k = false) :
    ∃ f, 0 < f ∧ f < MAX_FRAMES ∧ f ≤ k ∧ s.frame_bitmap f = false ∧
      pmm_alloc_page s = (f * FRAME_SIZE,
        { bitmap_set s f with free_frames := s.free_frames - 1 }) := by
  have hex : ∃ j, s.frame_bitmap j = false := ⟨k, hkc⟩
  have hfspec : s.frame_bitmap (Nat.find hex) = false := Nat.find_spec hex
  have hfle : Nat.find hex ≤ k := Nat.find_min' hex hkc
  have hmin : ∀ j, j < Nat.find hex → s.frame_bitmap j = true := by
    intro j hj
    have hne := Nat.find_min hex hj
    cases hb : s.frame_bitmap j
    · exact absurd hb hne
    · rfl
  have hf0 : 0 < Nat.find hex := by
    rcases Nat.eq_zero_or_pos (Nat.find hex) with hz | hp
    · rw [hz, h0] at hfspec
      exact absurd hfspec (by simp)
    · exact hp
  exact ⟨Nat.find hex, hf0, by omega, hfle, hfspec,
    pmm_alloc_page_success_shape s (Nat.find hex) hinit hnn hfree (by omega)
      hfspec hmin⟩

/-- C9: a requested stack size other than exactly 4096 bytes makes
task_create_kernel_thread fail with no task created and the PMM and id
counter untouched (a NULL entry point fails the same way); with
stack_size = 4096, a non-NULL entry point and at least two allocatable
frames (frame 0 being reserved so the sentinel cannot be hit), creation
succeeds and the new task carries the next id, READY state, the
requested priority and a one-page stack. -/
theorem task_create_kernel_thread_spec (pmm : PmmState) (next_id : Nat)
    (e : Bool) (pr : Fin 256) (ss : Nat) :
    (ss ≠ 4096 → task_create_kernel_thread pmm next_id e pr ss = (none, pmm, next_id)) ∧
    (ss = 4096 → e = false →
     pmm.inited = true → pmm.bitmap_is_null = false →
     2 ≤ pmm.free_frames → pmm.frame_bitmap 0 = true →
     ∀ i j, i < j → j < MAX_FRAMES →
       pmm.frame_bitmap i = false → pmm.frame_bitmap j = false →
       ∃ t, (task_create_kernel_thread pmm next_id e pr ss).1 = some t ∧
         t.task_id = next_id ∧ t.state = TaskState.ready ∧
         t.priority = pr ∧ t.kernel_stack_size = 4096) := by
  constructor
  · intro hss
    cases e with
    | true => simp [task_create_kernel_thread]
    | false => simp [task_create_kernel_thread, hss]
  · intro hss he hinit hnn hfree h0 i j hij hjlt hic hjc
    subst hss
    subst he
    obtain ⟨f1, hf1pos, hf1lt, hf1le, hf1clear, halloc1⟩ :=
      pmm_alloc_page_pos pmm hinit hnn (by omega) h0 i (by omega) hic
    have hjne : j ≠ f1 := by omega
    have hbm1 : ∀ x, x ≠ f1 →
        ({ bitmap_set pmm f1 with free_frames := pmm.free_frames - 1 } :
          PmmState).frame_bitmap x = pmm.frame_bitmap x := by
      intro x hx
      simp [bitmap_set, hx]
    obtain ⟨f2, hf2pos, hf2lt, hf2le, hf2clear, halloc2⟩ :=
      pmm_alloc_page_pos
        { bitmap_set pmm f1 with free_frames := pmm.free_frames - 1 }
        (by simp [bitmap_set, hinit]) (by simp [bitmap_set, hnn])
        (by simp [bitmap_set]; omega)
        (by rw [hbm1 0 (by omega)]; exact h0)
        j hjlt (by rw [hbm1 j hjne]; exact hjc)
    have heq : (task_create_kernel_thread pmm next_id false pr 4096).1 =
        some { task_id := next_id, state := TaskState.ready, priority := pr,
               kernel_stack := f2 * FRAME_SIZE, kernel_stack_size := 4096 } := by
      unfold task_create_kernel_thread
      rw [if_neg (by simp), if_neg (by simp), halloc1]
      simp only
      rw [if_neg (by simp only [FRAME_SIZE]; omega), halloc2]
      simp only
      rw [if_neg (by simp only [FRAME_SIZE]; omega)]
    exact ⟨_, heq, rfl, rfl, rfl, rfl⟩

/-- Witness for C9: on `w_pmm_two_free`, an 8 KiB stack request fails
with the state untouched, while a 4 KiB request with a non-NULL entry
succeeds and yields task id 5, READY, priority 9, 4 KiB stack. -/
theorem task_create_kernel_thread_spec_witness :
    task_create_kernel_thread w_pmm_two_free 5 false 9 8192 =
      (none, w_pmm_two_free, 5) ∧
    ∃ t, (task_create_kernel_thread w_pmm_two_free 5 false 9 4096).1 = some t ∧
      t.task_id = 5 ∧ t.state = TaskState.ready ∧
      t.priority = 9 ∧ t.kernel_stack_size = 4096 :=
  ⟨(task_create_kernel_thread_spec w_pmm_two_free 5 false 9 8192).1 (by decide),
   (task_create_kernel_thread_spec w_pmm_two_free 5 false 9 4096).2 rfl rfl
     rfl rfl (by decide) (by decide) 1 2 (by decide) (by decide)
     (by decide) (by decide)⟩

/-! ### MMU: map / unmap (C5) -/

theorem testBit_mask_fffff000 (j : Nat) :
    (0xFFFFF000 : Nat).testBit j = decide (12 ≤ j ∧ j < 32) := by
  have h : (0xFFFFF000 : Nat) = (2 ^ 32 - 1) ^^^ (2 ^ 12 - 1) := by decide
  rw [h, Nat.testBit_xor, Nat.testBit_two_pow_sub_one, Nat.testBit_two_pow_sub_one]
  rcases Nat.lt_or_ge j 12 with h1 | h1
  · have h2 : j < 32 := by omega
    have h3 : ¬ (12 ≤ j ∧ j < 32) := by omega
    simp [h1, h2, h3]
  · rcases Nat.lt_or_ge j 32 with h2 | h2
    · have h3 : 12 ≤ j ∧ j < 32 := by omega
      have h4 : ¬ j < 12 := by omega
      simp [h2, h4, h3]
    · have h3 : ¬ (12 ≤ j ∧ j < 32) := by omega
      have h4 : ¬ j < 12 := by omega
      have h5 : ¬ j < 32 := by omega
      simp [h4, h5, h3]

theorem testBit_mul_4096_low (f j : Nat) (hj : j < 12) :
    (f * 4096).testBit j = false := by
  rw [Nat.testBit_to_div_mod]
  have hexp : (12 - j) + j = 12 := by omega
  have h1 : f * 4096 = f * 2 ^ (12 - j) * 2 ^ j := by
    rw [Nat.mul_assoc, ← pow_add, hexp]
    norm_num
  have hdiv : f * 4096 / 2 ^ j = f * 2 ^ (12 - j) := by
    rw [h1, Nat.mul_div_cancel _ (Nat.two_pow_pos j)]
  rw [hdiv]
  have h2 : 12 - j = (11 - j) + 1 := by omega
  have hmod : f * 2 ^ (12 - j) % 2 = 0 := by
    rw [h2, pow_succ, ← Nat.mul_assoc]
    simp
  rw [hmod]
  rfl

theorem pde_install_entry_eq (a : Nat) :
    a ||| PDE_PRESENT ||| PDE_WRITABLE ||| PDE_USER = a ||| 7 := by
  rw [Nat.or_assoc, Nat.or_assoc]
  have h : PDE_PRESENT ||| (PDE_WRITABLE ||| PDE_USER) = 7 := by decide
  rw [h]

theorem PAGE_FRAME_or_seven (f : Nat) (hf : f < MAX_FRAMES) :
    PAGE_FRAME (f * FRAME_SIZE ||| 7) = f * FRAME_SIZE := by
  have hM : MAX_FRAMES = 1048576 := by norm_num [MAX_FRAMES, FRAME_SIZE]
  have hFS : FRAME_SIZE = 4096 := rfl
  have hf2 : f < 1048576 := hM ▸ hf
  have ha32 : f * 4096 < 2 ^ 32 := by omega
  unfold PAGE_FRAME
  apply Nat.eq_of_testBit_eq
  intro k
  rw [Nat.testBit_and, Nat.testBit_or, testBit_mask_fffff000, hFS]
  have h7 : (7 : Nat).testBit k = decide (k < 3) := by
    have h73 : (7 : Nat) = 2 ^ 3 - 1 := by norm_num
    rw [h73, Nat.testBit_two_pow_sub_one]
  rw [h7]
  rcases Nat.lt_or_ge k 12 with hk | hk
  · have hm : ¬ (12 ≤ k ∧ k < 32) := by omega
    simp [hm, testBit_mul_4096_low f k hk]
  · rcases Nat.lt_or_ge k 32 with hk2 | hk2
    · have hm : 12 ≤ k ∧ k < 32 := by omega
      have h3 : ¬ k < 3 := by omega
      simp [hm, h3]
    · have hm : ¬ (12 ≤ k ∧ k < 32) := by omega
      have hb : (f * 4096).testBit k = false :=
        Nat.testBit_lt_two_pow
          (lt_of_lt_of_le ha32 (Nat.pow_le_pow_right (by norm_num) hk2))
      simp [hm, hb]

theorem or_seven_and_present (a : Nat) : (a ||| 7) &&& PDE_PRESENT ≠ 0 := by
  have hp : PDE_PRESENT = 1 := by decide
  rw [hp, Nat.and_one_is_mod]
  have hb : (a ||| 7).testBit 0 = true := by
    rw [Nat.testBit_or]
    have h70 : (7 : Nat).testBit 0 = true := by decide
    simp [h70]
  rw [Nat.testBit_to_div_mod] at hb
  simp only [pow_zero, Nat.div_one, decide_eq_true_eq] at hb
  omega

theorem write_entry_mem_same (m : MachineState) (b i v : Nat) :
    (write_entry m b i v).mem b i = v := by
  simp [write_entry]

theorem write_entry_mem_other_base (m : MachineState) (b i v b2 i2 : Nat)
    (hb : b2 ≠ b) : (write_entry m b i v).mem b2 i2 = m.mem b2 i2 := by
  simp [write_entry, hb]

theorem mmu_unmap_page_pmm (m : MachineState) (pt : Option PageTableHandle)
    (virt : Nat) : (mmu_unmap_page m pt virt).pmm = m.pmm := by
  unfold mmu_unmap_page
  cases pt with
  | none => rfl
  | some h =>
    by_cases hav : IS_PAGE_ALIGNED virt
    · simp only [hav, Bool.not_true, Bool.false_eq_true, if_false]
      split
      · rfl
      · rfl
    · simp [hav]

theorem mmu_unmap_page_absent (m : MachineState) (h : PageTableHandle)
    (virt : Nat)
    (habsent : m.mem h.pd_phys (PD_INDEX virt) &&& PDE_PRESENT = 0) :
    mmu_unmap_page m (some h) virt = m := by
  unfold mmu_unmap_page
  by_cases hav : IS_PAGE_ALIGNED virt
  · simp [hav, habsent]
  · simp [hav]

theorem mmu_unmap_page_present (m : MachineState) (h : PageTableHandle)
    (virt : Nat) (hav : IS_PAGE_ALIGNED virt = true)
    (hpresent : ¬ m.mem h.pd_phys (PD_INDEX virt) &&& PDE_PRESENT = 0) :
    mmu_unmap_page m (some h) virt =
      write_entry m (PAGE_FRAME (m.mem h.pd_phys (PD_INDEX virt)))
        (PT_INDEX virt) 0 := by
  unfold mmu_unmap_page
  simp only [hav, Bool.not_true, Bool.false_eq_true, if_false]
  rw [if_neg hpresent]

theorem mmu_map_page_present (m : MachineState) (h : PageTableHandle)
    (phys virt flags : Nat)
    (hap : IS_PAGE_ALIGNED phys = true) (hav : IS_PAGE_ALIGNED virt = true)
    (hpresent : ¬ m.mem h.pd_phys (PD_INDEX virt) &&& PDE_PRESENT = 0) :
    (mmu_map_page m (some h) phys virt flags).1 = some virt ∧
    (mmu_map_page m (some h) phys virt flags).2.pmm = m.pmm := by
  unfold mmu_map_page
  simp only [hap, hav, Bool.not_true, Bool.false_or, Bool.false_eq_true, if_false]
  rw [if_neg hpresent]
  exact ⟨rfl, rfl⟩

theorem mmu_map_page_fresh (m : MachineState) (h : PageTableHandle)
    (phys virt flags : Nat)
    (hap : IS_PAGE_ALIGNED phys = true) (hav : IS_PAGE_ALIGNED virt = true)
    (habsent : m.mem h.pd_phys (PD_INDEX virt) &&& PDE_PRESENT = 0)
    (halloc : (pmm_alloc_page m.pmm).1 ≠ 0)
    (hnself : (pmm_alloc_page m.pmm).1 ≠ h.pd_phys) :
    (mmu_map_page m (some h) phys virt flags).1 = some virt ∧
    (mmu_map_page m (some h) phys virt flags).2.pmm = (pmm_alloc_page m.pmm).2 ∧
    (mmu_map_page m (some h) phys virt flags).2.mem h.pd_phys (PD_INDEX virt) =
      ((pmm_alloc_page m.pmm).1 ||| PDE_PRESENT ||| PDE_WRITABLE ||| PDE_USER) := by
  rcases pmm_alloc_page_result_cases m.pmm with h0 | ⟨fr, hfrlt, hfr⟩
  · exact absurd h0 halloc
  · have hpf : PAGE_FRAME ((pmm_alloc_page m.pmm).1 ||| PDE_PRESENT |||
        PDE_WRITABLE ||| PDE_USER) = (pmm_alloc_page m.pmm).1 := by
      rw [pde_install_entry_eq, hfr, PAGE_FRAME_or_seven fr hfrlt]
    unfold mmu_map_page
    simp only [hap, hav, Bool.not_true, Bool.false_or, Bool.false_eq_true, if_false]
    rw [if_pos habsent, if_neg halloc]
    refine ⟨rfl, by simp [write_entry, zero_frame], ?_⟩
    simp only []
    rw [write_entry_mem_same, hpf]
    have hbne : h.pd_phys ≠ (pmm_alloc_page m.pmm).1 := Ne.symm hnself
    rw [write_entry_mem_other_base _ _ _ _ _ _ hbne, write_entry_mem_same]

/-- C5: with an aligned physical/virtual pair, a directory slot for
`virt` that is absent, and a successful page-table allocation (returning
a frame other than the directory itself): (i) unmap never touches the
PMM, so the page-table frame allocated by map remains allocated; (ii)
unmap of a virtual address whose directory slot is absent is a no-op;
(iii) map(h, phys, virt, flags) succeeds; (iv) after the subsequent
unmap(h, virt) the PMM state is unchanged; and (v) a second
map(h, phys2, virt, flags2) succeeds with no additional page-table
frame allocated (its PMM state is exactly the one before it ran). -/
theorem mmu_map_unmap_map_spec (m : MachineState) (h : PageTableHandle)
    (phys virt flags phys2 flags2 : Nat)
    (hap : IS_PAGE_ALIGNED phys = true) (hav : IS_PAGE_ALIGNED virt = true)
    (hap2 : IS_PAGE_ALIGNED phys2 = true)
    (habsent : m.mem h.pd_phys (PD_INDEX virt) &&& PDE_PRESENT = 0)
    (halloc : (pmm_alloc_page m.pmm).1 ≠ 0)
    (hnself : (pmm_alloc_page m.pmm).1 ≠ h.pd_phys) :
    (∀ m0 pt v, (mmu_unmap_page m0 pt v).pmm = m0.pmm) ∧
    (∀ m0 v, m0.mem h.pd_phys (PD_INDEX v) &&& PDE_PRESENT = 0 →
       mmu_unmap_page m0 (some h) v = m0) ∧
    (mmu_map_page m (some h) phys virt flags).1 = some virt ∧
    (mmu_unmap_page (mmu_map_page m (some h) phys virt flags).2 (some h) virt).pmm =
      (mmu_map_page m (some h) phys virt flags).2.pmm ∧
    (mmu_map_page
        (mmu_unmap_page (mmu_map_page m (some h) phys virt flags).2 (some h) virt)
        (some h) phys2 virt flags2).1 = some virt ∧
    (mmu_map_page
        (mmu_unmap_page (mmu_map_page m (some h) phys virt flags).2 (some h) virt)
        (some h) phys2 virt flags2).2.pmm =
      (mmu_unmap_page (mmu_map_page m (some h) phys virt flags).2 (some h) virt).pmm := by
  obtain ⟨hm1, hm1pmm, hm1slot⟩ :=
    mmu_map_page_fresh m h phys virt flags hap hav habsent halloc hnself
  have hpres1 : ¬ (mmu_map_page m (some h) phys virt flags).2.mem h.pd_phys
      (PD_INDEX virt) &&& PDE_PRESENT = 0 := by
    rw [hm1slot, pde_install_entry_eq]
    exact or_seven_and_present _
  rcases pmm_alloc_page_result_cases m.pmm with h0 | ⟨fr, hfrlt, hfr⟩
  · exact absurd h0 halloc
  have hpf : PAGE_FRAME ((pmm_alloc_page m.pmm).1 ||| PDE_PRESENT |||
      PDE_WRITABLE ||| PDE_USER) = (pmm_alloc_page m.pmm).1 := by
    rw [pde_install_entry_eq, hfr, PAGE_FRAME_or_seven fr hfrlt]
  have hunm : mmu_unmap_page (mmu_map_page m (some h) phys virt flags).2 (some h) virt =
      write_entry (mmu_map_page m (some h) phys virt flags).2
        (PAGE_FRAME ((mmu_map_page m (some h) phys virt flags).2.mem h.pd_phys
          (PD_INDEX virt)))
        (PT_INDEX virt) 0 :=
    mmu_unmap_page_present _ h virt hav hpres1
  have hslot2 : (mmu_unmap_page (mmu_map_page m (some h) phys virt flags).2
      (some h) virt).mem h.pd_phys (PD_INDEX virt) =
      ((pmm_alloc_page m.pmm).1 ||| PDE_PRESENT ||| PDE_WRITABLE ||| PDE_USER) := by
    rw [hunm, hm1slot, hpf]
    have hbne : h.pd_phys ≠ (pmm_alloc_page m.pmm).1 := Ne.symm hnself
    rw [write_entry_mem_other_base _ _ _ _ _ _ hbne]
    exact hm1slot
  have hpres2 : ¬ (mmu_unmap_page (mmu_map_page m (some h) phys virt flags).2
      (some h) virt).mem h.pd_phys (PD_INDEX virt) &&& PDE_PRESENT = 0 := by
    rw [hslot2, pde_install_entry_eq]
    exact or_seven_and_present _
  obtain ⟨hmap2a, hmap2b⟩ :=
    mmu_map_page_present
      (mmu_unmap_page (mmu_map_page m (some h) phys virt flags).2 (some h) virt)
      h phys2 virt flags2 hap2 hav hpres2
  exact ⟨fun m0 pt v => mmu_unmap_page_pmm m0 pt v,
         fun m0 v habs => mmu_unmap_page_absent m0 h v habs,
         hm1,
         by rw [hunm]; rfl,
         hmap2a,
         hmap2b⟩

/-- Witness for C5 (the S6 scenario): mapping physical 0 at virtual
0x00400000 with (present|writable) into an empty directory at 0x5000
over `w_pmm_two_free`, then unmapping and re-mapping 0x2000 there. -/
theorem mmu_map_unmap_map_spec_witness :
    (mmu_map_page ⟨fun _ _ => 0, w_pmm_two_free⟩ (some ⟨0x5000⟩) 0 0x400000 3).1 =
      some 0x400000 ∧
    (mmu_map_page
        (mmu_unmap_page
          (mmu_map_page ⟨fun _ _ => 0, w_pmm_two_free⟩ (some ⟨0x5000⟩) 0 0x400000 3).2
          (some ⟨0x5000⟩) 0x400000)
        (some ⟨0x5000⟩) 0x2000 0x400000 3).1 = some 0x400000 ∧
    (mmu_map_page
        (mmu_unmap_page
          (mmu_map_page ⟨fun _ _ => 0, w_pmm_two_free⟩ (some ⟨0x5000⟩) 0 0x400000 3).2
          (some ⟨0x5000⟩) 0x400000)
        (some ⟨0x5000⟩) 0x2000 0x400000 3).2.pmm =
      (mmu_unmap_page
        (mmu_map_page ⟨fun _ _ => 0, w_pmm_two_free⟩ (some ⟨0x5000⟩) 0 0x400000 3).2
        (some ⟨0x5000⟩) 0x400000).pmm := by
  have hs := mmu_map_unmap_map_spec ⟨fun _ _ => 0, w_pmm_two_free⟩ ⟨0x5000⟩
    0 0x400000 3 0x2000 3 (by decide) (by decide) (by decide) (by decide)
    (by decide) (by decide)
  exact ⟨hs.2.2.1, hs.2.2.2.2.1, hs.2.2.2.2.2⟩

/-! ### PMM initialization on the S1 memory map (C8) -/

theorem mark_avail_frames_spec (n : Nat) :
    ∀ (s : PmmState) (frame : Nat), frame + n ≤ MAX_FRAMES →
      (mark_avail_frames s frame n).total_frames = s.total_frames + n ∧
      (mark_avail_frames s frame n).free_frames = s.free_frames + n ∧
      (mark_avail_frames s frame n).reserved_frames = s.reserved_frames ∧
      (mark_avail_frames s frame n).bitmap_is_null = s.bitmap_is_null ∧
      (mark_avail_frames s frame n).inited = s.inited ∧
      ∀ f, (mark_avail_frames s frame n).frame_bitmap f =
        if frame ≤ f ∧ f < frame + n then false else s.frame_bitmap f := by
  induction n with
  | zero =>
    intro s frame _
    refine ⟨rfl, rfl, rfl, rfl, rfl, fun f => ?_⟩
    rw [if_neg (by omega)]
    rfl
  | succ k ih =>
    intro s frame hle
    simp only [mark_avail_frames]
    rw [if_pos (by omega : frame < MAX_FRAMES)]
    obtain ⟨h1, h2, h3, h4, h5, h6⟩ :=
      ih { bitmap_clear s frame with
             total_frames := s.total_frames + 1,
             free_frames := s.free_frames + 1 } (frame + 1) (by omega)
    have e1 : ({ bitmap_clear s frame with
        total_frames := s.total_frames + 1,
        free_frames := s.free_frames + 1 } : PmmState).total_frames =
        s.total_frames + 1 := rfl
    have e2 : ({ bitmap_clear s frame with
        total_frames := s.total_frames + 1,
        free_frames := s.free_frames + 1 } : PmmState).free_frames =
        s.free_frames + 1 := rfl
    have e6 : ∀ f, ({ bitmap_clear s frame with
        total_frames := s.total_frames + 1,
        free_frames := s.free_frames + 1 } : PmmState).frame_bitmap f =
        if f = frame then false else s.frame_bitmap f := fun f => rfl
    refine ⟨?_, ?_, h3, h4, h5, ?_⟩
    · rw [h1, e1]; omega
    · rw [h2, e2]; omega
    · intro f
      rw [h6 f, e6 f]
      by_cases hf : frame + 1 ≤ f ∧ f < frame + 1 + k
      · rw [if_pos hf, if_pos (by omega)]
      · rw [if_neg hf]
        by_cases hf2 : f = frame
        · rw [if_pos hf2, if_pos (by omega)]
        · rw [if_neg hf2, if_neg (by omega)]

theorem bitmap_set_already (s : PmmState) (frame : Nat)
    (h : s.frame_bitmap frame = true) : bitmap_set s frame = s := by
  have hfun : (fun f => if f = frame then true else s.frame_bitmap f) =
      s.frame_bitmap := by
    funext f
    by_cases hf : f = frame
    · subst hf
      rw [if_pos rfl, h]
    · rw [if_neg hf]
  unfold bitmap_set
  rw [hfun]

theorem reserve_frames_all_set (n : Nat) :
    ∀ (s : PmmState) (frame : Nat),
      (∀ f, frame ≤ f → f < frame + n → s.frame_bitmap f = true) →
      reserve_frames s frame n = s := by
  induction n with
  | zero => intro s frame _; rfl
  | succ k ih =>
    intro s frame hset
    simp only [reserve_frames]
    have hbit : s.frame_bitmap frame = true := hset frame le_rfl (by omega)
    have hcond : (!bitmap_test s frame && decide (frame < s.total_frames)) = false := by
      simp [bitmap_test, hbit]
    by_cases hm : frame < MAX_FRAMES
    · rw [if_pos hm]
      simp only [hcond, Bool.false_eq_true, if_false]
      rw [bitmap_set_already s frame hbit]
      exact ih s (frame + 1) (fun f h1 h2 => hset f (by omega) (by omega))
    · rw [if_neg hm]
      exact ih s (frame + 1) (fun f h1 h2 => hset f (by omega) (by omega))

theorem reserve_frames_all_clear (n : Nat) :
    ∀ (s : PmmState) (frame : Nat),
      frame + n ≤ MAX_FRAMES →
      (∀ f, frame ≤ f → f < frame + n →
        s.frame_bitmap f = false ∧ f < s.total_frames) →
      n ≤ s.free_frames →
      (reserve_frames s frame n).total_frames = s.total_frames ∧
      (reserve_frames s frame n).free_frames = s.free_frames - n ∧
      (reserve_frames s frame n).reserved_frames = s.reserved_frames + n ∧
      (reserve_frames s frame n).bitmap_is_null = s.bitmap_is_null ∧
      (reserve_frames s frame n).inited = s.inited ∧
      ∀ f, (reserve_frames s frame n).frame_bitmap f =
        if frame ≤ f ∧ f < frame + n then true else s.frame_bitmap f := by
  induction n with
  | zero =>
    intro s frame _ _ _
    refine ⟨rfl, rfl, rfl, rfl, rfl, fun f => ?_⟩
    rw [if_neg (by omega)]
    rfl
  | succ k ih =>
    intro s frame hle hclear hfree
    simp only [reserve_frames]
    rw [if_pos (by omega : frame < MAX_FRAMES)]
    have hbit : s.frame_bitmap frame = false := (hclear frame le_rfl (by omega)).1
    have htot : frame < s.total_frames := (hclear frame le_rfl (by omega)).2
    have hcond : (!bitmap_test s frame && decide (frame < s.total_frames)) = true := by
      simp [bitmap_test, hbit, htot]
    simp only [hcond, if_true]
    rw [if_pos (by omega : 0 < s.free_frames)]
    obtain ⟨h1, h2, h3, h4, h5, h6⟩ :=
      ih (bitmap_set
            { s with
                free_frames := s.free_frames - 1
                reserved_frames := s.reserved_frames + 1 }
            frame) (frame + 1)
        (by omega)
        (by
          intro f hf1 hf2
          have hc := hclear f (by omega) (by omega)
          constructor
          · show (if f = frame then true else s.frame_bitmap f) = false
            rw [if_neg (by omega)]
            exact hc.1
          · exact hc.2)
        (by
          show k ≤ s.free_frames - 1
          omega)
    have e6 : ∀ f, (bitmap_set
        { s with
            free_frames := s.free_frames - 1
            reserved_frames := s.reserved_frames + 1 }
        frame).frame_bitmap f =
        if f = frame then true else s.frame_bitmap f := fun f => rfl
    refine ⟨h1, ?_, ?_, h4, h5, ?_⟩
    · rw [h2]
      show s.free_frames - 1 - k = s.free_frames - (k + 1)
      omega
    · rw [h3]
      show s.reserved_frames + 1 + k = s.reserved_frames + (k + 1)
      omega
    · intro f
      rw [h6 f, e6 f]
      by_cases hf : frame + 1 ≤ f ∧ f < frame + 1 + k
      · rw [if_pos hf, if_pos (by omega)]
      · rw [if_neg hf]
        by_cases hf2 : f = frame
        · rw [if_pos hf2, if_pos (by omega)]
        · rw [if_neg hf2, if_neg (by omega)]

theorem with_inited_total (s : PmmState) :
    ({ s with inited := true } : PmmState).total_frames = s.total_frames := rfl

theorem with_inited_free (s : PmmState) :
    ({ s with inited := true } : PmmState).free_frames = s.free_frames := rfl

theorem with_inited_reserved (s : PmmState) :
    ({ s with inited := true } : PmmState).reserved_frames = s.reserved_frames := rfl

theorem with_inited_null (s : PmmState) :
    ({ s with inited := true } : PmmState).bitmap_is_null = s.bitmap_is_null := rfl

theorem with_inited_inited (s : PmmState) :
    ({ s with inited := true } : PmmState).inited = true := rfl

theorem with_inited_bitmap (s : PmmState) (f : Nat) :
    ({ s with inited := true } : PmmState).frame_bitmap f = s.frame_bitmap f := rfl

/-- The success path of `pmm_init` for a valid magic and a multiboot
info with the memory-map flag: walk the map, then reserve the NULL
page, the VGA window and the kernel image, and set the flag. -/
theorem pmm_init_some_mmap (info : MultibootInfo) (ks ke : Nat)
    (hf : ¬ info.flags &&& MULTIBOOT_FLAG_MMAP = 0) :
    pmm_init MULTIBOOT_MAGIC (some info) ks ke =
      { pmm_reserve_region (pmm_reserve_region (pmm_reserve_region
          (process_mmap pmm_reset_state info.mmap) 0 FRAME_SIZE)
          0xb8000 (32 * 1024)) ks (ke - ks)
        with inited := true } := by
  unfold pmm_init
  rw [if_neg (show ¬ MULTIBOOT_MAGIC ≠ MULTIBOOT_MAGIC from fun h => h rfl)]
  dsimp only
  rw [if_neg hf]

theorem s1_state_fields :
    s1_state.total_frames = 32672 ∧ s1_state.free_frames = 32415 ∧
    s1_state.reserved_frames = 257 ∧ s1_state.inited = true ∧
    s1_state.bitmap_is_null = false ∧
    (pmm_alloc_page s1_state).1 = 0x1000 := by
  have hM : MAX_FRAMES = 1048576 := by norm_num [MAX_FRAMES, FRAME_SIZE]
  -- Rewrite pmm_init on the S1 map into the two marking passes followed
  -- by the three reservation passes, all with literal frame ranges.
  have hgen : ∀ s : PmmState, process_mmap s s1_info.mmap =
      mark_avail_frames (mark_avail_frames s 0 160) 256 32512 := by
    intro s
    have hA : (1 : Nat) = MULTIBOOT_MEMORY_AVAILABLE := by
      norm_num [MULTIBOOT_MEMORY_AVAILABLE]
    have hB : ¬ (2 : Nat) = MULTIBOOT_MEMORY_AVAILABLE := by
      norm_num [MULTIBOOT_MEMORY_AVAILABLE]
    simp only [s1_info, process_mmap, if_pos hA, if_neg hB]
    norm_num [FRAME_SIZE]
  have hr1 : ∀ s : PmmState, pmm_reserve_region s 0 FRAME_SIZE =
      reserve_frames s 0 1 := by
    intro s
    unfold pmm_reserve_region
    norm_num [FRAME_SIZE]
  have hr2 : ∀ s : PmmState, pmm_reserve_region s 0xb8000 (32 * 1024) =
      reserve_frames s 184 8 := by
    intro s
    unfold pmm_reserve_region
    norm_num [FRAME_SIZE]
  have hr3 : ∀ s : PmmState, pmm_reserve_region s 0x100000 (0x200000 - 0x100000) =
      reserve_frames s 256 256 := by
    intro s
    unfold pmm_reserve_region
    norm_num [FRAME_SIZE]
  -- facts about the two marking passes
  obtain ⟨m1t, m1f, m1r, m1n, m1i, m1b⟩ :=
    mark_avail_frames_spec 160 pmm_reset_state 0 (by omega)
  obtain ⟨m2t, m2f, m2r, m2n, m2i, m2b⟩ :=
    mark_avail_frames_spec 32512 (mark_avail_frames pmm_reset_state 0 160) 256
      (by omega)
  have hm2bit : ∀ f, (mark_avail_frames (mark_avail_frames pmm_reset_state 0 160)
      256 32512).frame_bitmap f =
      if (f < 160 ∨ (256 ≤ f ∧ f < 32768)) then false else true := by
    intro f
    rw [m2b f, m1b f]
    by_cases h1 : 256 ≤ f ∧ f < 256 + 32512
    · rw [if_pos h1, if_pos (by omega)]
    · rw [if_neg h1]
      by_cases h2 : 0 ≤ f ∧ f < 0 + 160
      · rw [if_pos h2, if_pos (by omega)]
      · rw [if_neg h2, if_neg (by omega)]
        rfl
  rw [m1t] at m2t
  rw [m1f] at m2f
  rw [m1r] at m2r
  rw [m1n] at m2n
  rw [m1i] at m2i
  -- NULL-page reservation: frame 0, which is free
  obtain ⟨r1t, r1f, r1r, r1n, r1i, r1b⟩ :=
    reserve_frames_all_clear 1
      (mark_avail_frames (mark_avail_frames pmm_reset_state 0 160) 256 32512) 0
      (by omega)
      (by
        intro f hf1 hf2
        have hf0 : f = 0 := by omega
        subst hf0
        refine ⟨by rw [hm2bit 0, if_pos (by omega)], ?_⟩
        rw [m2t]
        norm_num [pmm_reset_state])
      (by rw [m2f]; norm_num [pmm_reset_state])
  -- VGA window: frames 184–191, never available, already set
  have hvga : reserve_frames (reserve_frames
      (mark_avail_frames (mark_avail_frames pmm_reset_state 0 160) 256 32512)
      0 1) 184 8 =
      reserve_frames
        (mark_avail_frames (mark_avail_frames pmm_reset_state 0 160) 256 32512)
        0 1 := by
    apply reserve_frames_all_set
    intro f hf1 hf2
    rw [r1b f, if_neg (by omega), hm2bit f, if_neg (by omega)]
  -- kernel image: frames 256–511, free
  obtain ⟨r3t, r3f, r3r, r3n, r3i, r3b⟩ :=
    reserve_frames_all_clear 256
      (reserve_frames
        (mark_avail_frames (mark_avail_frames pmm_reset_state 0 160) 256 32512)
        0 1) 256
      (by omega)
      (by
        intro f hf1 hf2
        refine ⟨by rw [r1b f, if_neg (by omega), hm2bit f, if_pos (by omega)], ?_⟩
        rw [r1t, m2t]
        norm_num [pmm_reset_state]
        omega)
      (by
        rw [r1f, m2f]
        norm_num [pmm_reset_state])
  -- the full initialization, as one explicit equation
  have echain : s1_state =
      { reserve_frames
          (reserve_frames
            (reserve_frames
              (mark_avail_frames (mark_avail_frames pmm_reset_state 0 160) 256 32512)
              0 1)
            184 8)
          256 256
        with inited := true } := by
    have e1 : s1_state = pmm_init MULTIBOOT_MAGIC (some s1_info) 0x100000 0x200000 := rfl
    rw [e1, pmm_init_some_mmap s1_info 0x100000 0x200000 (by decide),
        hgen pmm_reset_state, hr1, hr2, hr3]
  -- assemble the counters
  have htotal : s1_state.total_frames = 32672 := by
    rw [echain, with_inited_total, hvga, r3t, r1t, m2t]
    norm_num [pmm_reset_state]
  have hfree : s1_state.free_frames = 32415 := by
    rw [echain, with_inited_free, hvga, r3f, r1f, m2f]
    norm_num [pmm_reset_state]
  have hres : s1_state.reserved_frames = 257 := by
    rw [echain, with_inited_reserved, hvga, r3r, r1r, m2r]
    norm_num [pmm_reset_state]
  have hinit : s1_state.inited = true := by
    rw [echain, with_inited_inited]
  have hnull : s1_state.bitmap_is_null = false := by
    rw [echain, with_inited_null, hvga, r3n, r1n, m2n]
    rfl
  have hbit0 : s1_state.frame_bitmap 0 = true := by
    rw [echain, with_inited_bitmap, hvga, r3b 0, if_neg (by omega),
        r1b 0, if_pos (by omega)]
  have hbit1 : s1_state.frame_bitmap 1 = false := by
    rw [echain, with_inited_bitmap, hvga, r3b 1, if_neg (by omega),
        r1b 1, if_neg (by omega), hm2bit 1, if_pos (by omega)]
  have halloc : (pmm_alloc_page s1_state).1 = 0x1000 := by
    rw [pmm_alloc_page_success_shape s1_state 1 hinit hnull (by omega)
      (by omega) hbit1
      (by
        intro k hk
        have hk0 : k = 0 := by omega
        subst hk0
        exact hbit0)]
    show 1 * FRAME_SIZE = 0x1000
    norm_num [FRAME_SIZE]
  exact ⟨htotal, hfree, hres, hinit, hnull, halloc⟩

/-- Counterexample for C8 as stated: on the S1 memory map the PMM
reports 32,415 free frames with 257 reserved, but 32,928 minus the
reserved count is 32,671: the claimed 32,928 base is wrong (the map
holds 32,672 available frames: 160 below 640 KiB plus 32,512 between
1 MiB and 128 MiB). -/
theorem pmm_init_s1_counterexample :
    ¬ s1_state.free_frames = 32928 - s1_state.reserved_frames := by
  obtain ⟨_, hfree, hres, _, _, _⟩ := s1_state_fields
  rw [hfree, hres]
  omega

/-- C8 (amended): booting with the S1 map yields 32,672 available
frames, so the PMM reports 32,672 minus the reserved frames free
(reserved = 257 with the host-test kernel bounds: the NULL page and the
256 kernel-image frames; the VGA window lies in memory that was never
available), and the first subsequent pmm_alloc_page returns 0x1000
(frame 1, frame 0 being the reserved NULL page). -/
theorem pmm_init_s1_spec :
    s1_state.free_frames = 32672 - s1_state.reserved_frames ∧
    s1_state.reserved_frames = 257 ∧
    (pmm_alloc_page s1_state).1 = 0x1000 := by
  obtain ⟨_, hfree, hres, _, _, halloc⟩ := s1_state_fields
  rw [hfree, hres]
  exact ⟨by omega, rfl, halloc⟩

end AionCore
